import Mathlib

/-!
Verification of the pygbm repository: a Geometric Brownian Motion (GBM)
path simulator (abstract base in src/src/pygbm/base.pyx, the concrete
GBMSimulator described by the design document) and a Next.js frontend
form (src/project_app/frontend/app/page.tsx).

The GBM mathematics is embedded over the real numbers; the stream of
standard-normal draws produced by the seeded generator is abstracted as
a function from the effective seed and the draw index to a real number,
since the pseudo-random backend is outside the numeric contract.
-/

namespace PyGBM

/-- Error raised when a construction or call parameter violates the
domain constraints; it carries the name of the offending field. -/
inductive GBMError where
  | invalidParameter (field : String)
  deriving DecidableEq, Repr

/-- From src/src/pygbm/base.pyx: the state held by a `StochasticProcess`
instance after `__init__` runs; the constructor stores the optional
seed in the attribute `_seed`. -/
structure StochasticProcessState where
  _seed : Option ℤ
  deriving DecidableEq, Repr

/-- From src/src/pygbm/base.pyx, `StochasticProcess.__init__`:
`self._seed = seed`, with `seed` defaulting to `None`. -/
def StochasticProcess.init (seed : Option ℤ) : StochasticProcessState :=
  ⟨seed⟩

/-- From src/src/pygbm/base.pyx: the default argument of `__init__` is
`None`, so constructing with no seed stores `none`. -/
def StochasticProcess.initDefault : StochasticProcessState :=
  StochasticProcess.init none

/-- Modelled from the spec: gbm_simulator.py is not under src/.
Section 3 of the design document: GBM parameters `y0` (initial value),
`mu` (drift), `sigma` (volatility), optional `seed`, fixed at
construction and immutable for the lifetime of the instance. -/
structure GBMSimulator where
  y0 : ℝ
  mu : ℝ
  sigma : ℝ
  seed : Option ℤ

/-- Modelled from the spec: gbm_simulator.py is not under src/.
Construction validation from sections 4.2 and 7: fail with
`InvalidParameter` naming the offending field when `y0 <= 0` or
`sigma < 0`; otherwise store the four parameters. -/
noncomputable def mkGBMSimulator (y0 mu sigma : ℝ) (seed : Option ℤ) :
    Except GBMError GBMSimulator :=
  if y0 ≤ 0 then .error (.invalidParameter "y0")
  else if sigma < 0 then .error (.invalidParameter "sigma")
  else .ok ⟨y0, mu, sigma, seed⟩

/-- Modelled from the spec: gbm_simulator.py is not under src/.
Step 1 of the algorithm in section 4.2: the uniform time grid
`t_i = i * (T / N)` for `i = 0 .. N` (N + 1 points). -/
noncomputable def tValues (T : ℝ) (N : ℕ) : List ℝ :=
  (List.range (N + 1)).map (fun i : ℕ => (i : ℝ) * (T / N))

/-- Modelled from the spec: gbm_simulator.py is not under src/.
Step 3 of the algorithm in section 4.2: the Brownian path by cumulative
summation, `W_i` being the sum of `sqrt(dt) * Z_k` over the first `i`
draws, so that `W_0 = 0`. -/
noncomputable def brownianW (dt : ℝ) (Z : ℕ → ℝ) (i : ℕ) : ℝ :=
  ∑ k ∈ Finset.range i, Real.sqrt dt * Z k

/-- Modelled from the spec: gbm_simulator.py is not under src/.
Step 4 of the algorithm in section 4.2: the closed-form GBM solution
`y_i = y0 * exp((mu - sigma^2 / 2) * t_i + sigma * W_i)`. -/
noncomputable def yValue (p : GBMSimulator) (T : ℝ) (N : ℕ) (Z : ℕ → ℝ) (i : ℕ) : ℝ :=
  p.y0 * Real.exp ((p.mu - p.sigma ^ 2 / 2) * ((i : ℝ) * (T / N))
    + p.sigma * brownianW (T / N) Z i)

/-- Modelled from the spec: gbm_simulator.py is not under src/.
The value grid: the closed-form solution evaluated at every point of
the time grid. -/
noncomputable def yValues (p : GBMSimulator) (T : ℝ) (N : ℕ) (Z : ℕ → ℝ) : List ℝ :=
  (List.range (N + 1)).map (yValue p T N Z)

/-- Modelled from the spec: gbm_simulator.py is not under src/.
The path computation of `simulate_path` once parameters are validated
and the noise stream `Z` is drawn: the pair `(t_values, y_values)`. -/
noncomputable def simulatePath (p : GBMSimulator) (T : ℝ) (N : ℕ) (Z : ℕ → ℝ) :
    List ℝ × List ℝ :=
  (tValues T N, yValues p T N Z)

/-- Modelled from the spec: gbm_simulator.py is not under src/.
Effective seed resolution from section 4.2: a call-level seed wins;
otherwise the instance seed stored at construction; otherwise a
non-deterministic fresh seed scoped to this call. -/
def effectiveSeed (instanceSeed callSeed : Option ℤ) (fresh : ℤ) : ℤ :=
  match callSeed with
  | some s => s
  | none =>
    match instanceSeed with
    | some s => s
    | none => fresh

/-- Modelled from the spec: gbm_simulator.py is not under src/.
A full `simulate_path` call on the numeric backend `G` (mapping a seed
to its stream of standard-normal draws): resolve the effective seed,
draw the noise, and compute the path. -/
noncomputable def simulateCall (G : ℤ → ℕ → ℝ) (p : GBMSimulator) (T : ℝ) (N : ℕ)
    (callSeed : Option ℤ) (fresh : ℤ) : List ℝ × List ℝ :=
  simulatePath p T N (G (effectiveSeed p.seed callSeed fresh))

/-- Modelled from the spec: gbm_simulator.py is not under src/.
The call viewed together with the simulator it leaves behind: the
parameters are immutable, so the instance after the call is the
instance before it. -/
noncomputable def simulateCallFull (G : ℤ → ℕ → ℝ) (p : GBMSimulator) (T : ℝ) (N : ℕ)
    (callSeed : Option ℤ) (fresh : ℤ) : GBMSimulator × (List ℝ × List ℝ) :=
  (p, simulateCall G p T N callSeed fresh)

/-- Modelled from the spec: gbm_simulator.py is not under src/.
`simulate_path` with its call-time validation from sections 4.2 and 7:
fail fast with `InvalidParameter` naming the offending field when
`T <= 0`, `N` is not an integer, or `N < 1`, before any computation;
otherwise return the complete path. The step count arrives as a
rational to give meaning to the non-integer `N` check. -/
noncomputable def simulatePathChecked (G : ℤ → ℕ → ℝ) (p : GBMSimulator) (T : ℝ)
    (N : ℚ) (callSeed : Option ℤ) (fresh : ℤ) : Except GBMError (List ℝ × List ℝ) :=
  if T ≤ 0 then .error (.invalidParameter "T")
  else if N.den ≠ 1 then .error (.invalidParameter "N")
  else if N < 1 then .error (.invalidParameter "N")
  else .ok (simulateCall G p T N.num.toNat callSeed fresh)

/-! ## Frontend model (src/project_app/frontend/app/page.tsx) -/

/-- A JavaScript number as the frontend form stores it: either a finite
numeric value or NaN, the result of coercing an input string. -/
inductive JSNum where
  | num (q : ℚ)
  | nan
  deriving DecidableEq, Repr

/-- From page.tsx: the `SimulationInput` form state with fields
`y0, mu, sigma, T, N`. -/
structure SimulationInput where
  y0 : JSNum
  mu : JSNum
  sigma : JSNum
  T : JSNum
  N : JSNum
  deriving DecidableEq, Repr

/-- The keys of the form, `keyof SimulationInput`. -/
inductive FormKey where
  | y0
  | mu
  | sigma
  | T
  | N
  deriving DecidableEq, Repr

/-- The spread-update `{ ...form, [key]: v }` of page.tsx. -/
def setField (f : SimulationInput) (k : FormKey) (v : JSNum) : SimulationInput :=
  match k with
  | .y0 => { f with y0 := v }
  | .mu => { f with mu := v }
  | .sigma => { f with sigma := v }
  | .T => { f with T := v }
  | .N => { f with N := v }

/-- Value of a list of decimal digit characters read in base 10. -/
def digitsToNat (l : List Char) : ℕ :=
  l.foldl (fun a c => 10 * a + (c.toNat - 48)) 0

/-- Modelled from the ECMAScript `Number(string)` coercion used by
page.tsx, restricted to decimal literals: an unsigned decimal literal
is digits, optionally followed by a dot and further digits, with at
least one digit overall. -/
def parseUnsignedDec (l : List Char) : Option ℚ :=
  match l.span Char.isDigit with
  | (ip, []) => if ip.isEmpty then none else some (digitsToNat ip : ℚ)
  | (ip, '.' :: fp) =>
    if fp.all Char.isDigit && !(ip.isEmpty && fp.isEmpty) then
      some ((digitsToNat ip : ℚ) + (digitsToNat fp : ℚ) / (10 : ℚ) ^ fp.length)
    else none
  | _ => none

/-- Strip leading and trailing whitespace, as `Number` does before
interpreting the string. -/
def stripWS (l : List Char) : List Char :=
  ((l.dropWhile Char.isWhitespace).reverse.dropWhile Char.isWhitespace).reverse

/-- Modelled from the ECMAScript `Number(string)` coercion applied in
`handleChange` of page.tsx (simplified to signed decimal literals):
the empty or all-whitespace string coerces to `0`, a decimal literal
with an optional sign coerces to its value, and anything else is NaN. -/
def jsNumber (s : String) : JSNum :=
  match stripWS s.toList with
  | [] => .num 0
  | '-' :: rest =>
    match parseUnsignedDec rest with
    | some q => .num (-q)
    | none => .nan
  | '+' :: rest =>
    match parseUnsignedDec rest with
    | some q => .num q
    | none => .nan
  | l =>
    match parseUnsignedDec l with
    | some q => .num q
    | none => .nan

/-- From page.tsx lines 31..33: `handleChange` stores
`Number(value)` under `key` in the form state. -/
def handleChange (form : SimulationInput) (key : FormKey) (value : String) :
    SimulationInput :=
  setField form key (jsNumber value)

/-- The HTTP request assembled by `runSimulation` in page.tsx. -/
structure SimRequest where
  url : String
  method : String
  body : SimulationInput
  deriving DecidableEq, Repr

/-- The component state touched by `runSimulation`: `result`,
`loading`, `error`. The response payload is kept abstract as the
serialized body. -/
structure UIState where
  result : Option String
  loading : Bool
  error : Option String
  deriving DecidableEq, Repr

/-- How the fetch initiated by `runSimulation` can end: a 2xx response
with a parsed body, a non-ok response whose text becomes the thrown
error message, or a failure of `fetch` or of parsing with an exception
message. -/
inductive FetchOutcome where
  | success (data : String)
  | httpError (text : String)
  | fetchFailure (message : String)
  deriving DecidableEq, Repr

/-- JavaScript `a || b` on strings: the empty string is falsy. -/
def jsOrElse (s fallbackMsg : String) : String :=
  if s = "" then fallbackMsg else s

/-- From page.tsx lines 35..56: `runSimulation` posts the current form
to the simulate endpoint and, once the request settles, leaves the
component state determined by the outcome — `result` set and `error`
null on success, `error` set (message, or "Request failed" when the
message is empty) and `result` null on any failure, `loading` false in
every case. -/
def runSimulation (form : SimulationInput) (outcome : FetchOutcome) :
    SimRequest × UIState :=
  (⟨"http://127.0.0.1:8000/simulate", "POST", form⟩,
    match outcome with
    | .success data => ⟨some data, false, none⟩
    | .httpError text => ⟨none, false, some (jsOrElse text "Request failed")⟩
    | .fetchFailure msg => ⟨none, false, some (jsOrElse msg "Request failed")⟩)

/-! ## Concrete instances used by witnesses -/

/-- The simulator of the concrete scenario in section 8 of the design
document: `y0 = 1.0`, `mu = 0.05`, `sigma = 0.2`, `seed = 42`. -/
noncomputable def scenarioSim : GBMSimulator :=
  ⟨1, 5 / 100, 2 / 10, some 42⟩

/-- A degenerate simulator with zero drift and zero volatility. -/
noncomputable def flatSim : GBMSimulator :=
  ⟨2, 0, 0, none⟩

/-- A concrete numeric backend: every standard-normal draw is zero. -/
def zeroBackend : ℤ → ℕ → ℝ :=
  fun _ _ => 0

/-- From page.tsx: the initial form state of the `useState` hook. -/
def initialForm : SimulationInput :=
  ⟨.num 1, .num (5 / 100), .num (2 / 10), .num 1, .num 100⟩

/-! ## Helper lemmas about the time and value grids -/

theorem tValues_length (T : ℝ) (N : ℕ) : (tValues T N).length = N + 1 := by
  rw [tValues, List.length_map, List.length_range]

theorem tValues_getElem (T : ℝ) (N : ℕ) (i : ℕ) (hi : i < N + 1) :
    (tValues T N)[i]? = some ((i : ℝ) * (T / N)) := by
  rw [tValues, List.getElem?_map, List.getElem?_range hi]
  rfl

theorem tValues_head (T : ℝ) (N : ℕ) : (tValues T N).head? = some 0 := by
  rw [tValues, List.range_succ_eq_map]
  simp

theorem tValues_getLast (T : ℝ) (N : ℕ) (hN : 1 ≤ N) :
    (tValues T N).getLast? = some T := by
  have hN0 : (N : ℝ) ≠ 0 := Nat.cast_ne_zero.mpr (Nat.one_le_iff_ne_zero.mp hN)
  rw [tValues, List.range_succ, List.map_append, List.map_cons, List.map_nil,
    List.getLast?_concat]
  rw [mul_div_assoc', mul_comm, mul_div_assoc, div_self hN0, mul_one]

theorem tValues_sorted (T : ℝ) (N : ℕ) (hT : 0 < T) (hN : 1 ≤ N) :
    (tValues T N).Pairwise (· < ·) := by
  have hN0 : (0 : ℝ) < N := by
    exact_mod_cast Nat.lt_of_lt_of_le Nat.zero_lt_one hN
  have hdt : 0 < T / N := div_pos hT hN0
  rw [tValues]
  refine List.Pairwise.map _ ?_ (List.pairwise_lt_range (N + 1))
  intro a b hab
  exact mul_lt_mul_of_pos_right (by exact_mod_cast hab) hdt

theorem tValues_concrete : tValues 1 4 = [0, 1 / 4, 1 / 2, 3 / 4, 1] := by
  rw [tValues]
  rw [show (4 : ℕ) + 1 = 5 from rfl]
  rw [List.range_succ, List.range_succ, List.range_succ, List.range_succ,
    List.range_succ, List.range_zero]
  norm_num

theorem yValues_length (p : GBMSimulator) (T : ℝ) (N : ℕ) (Z : ℕ → ℝ) :
    (yValues p T N Z).length = N + 1 := by
  rw [yValues, List.length_map, List.length_range]

theorem yValues_getElem (p : GBMSimulator) (T : ℝ) (N : ℕ) (Z : ℕ → ℝ) (i : ℕ)
    (hi : i < N + 1) : (yValues p T N Z)[i]? = some (yValue p T N Z i) := by
  rw [yValues, List.getElem?_map, List.getElem?_range hi]
  rfl

theorem yValues_head (p : GBMSimulator) (T : ℝ) (N : ℕ) (Z : ℕ → ℝ) :
    (yValues p T N Z).head? = some p.y0 := by
  rw [yValues, List.range_succ_eq_map]
  simp [yValue, brownianW]

theorem yValue_pos (p : GBMSimulator) (T : ℝ) (N : ℕ) (Z : ℕ → ℝ) (i : ℕ)
    (hy : 0 < p.y0) : 0 < yValue p T N Z i := by
  rw [yValue]
  exact mul_pos hy (Real.exp_pos _)

theorem yValue_sigma_zero (p : GBMSimulator) (T : ℝ) (N : ℕ) (Z : ℕ → ℝ) (i : ℕ)
    (hs : p.sigma = 0) :
    yValue p T N Z i = p.y0 * Real.exp (p.mu * ((i : ℝ) * (T / N))) := by
  rw [yValue, hs]
  norm_num

theorem yValue_sigma_mu_zero (p : GBMSimulator) (T : ℝ) (N : ℕ) (Z : ℕ → ℝ) (i : ℕ)
    (hs : p.sigma = 0) (hm : p.mu = 0) : yValue p T N Z i = p.y0 := by
  rw [yValue, hs, hm]
  norm_num

/-! ## The claims -/

/-- C1: for every valid call (`y0 > 0`, `sigma >= 0`, `T > 0`, `N >= 1`),
the returned path follows the closed-form GBM algorithm: the time grid is
`t_i = i * (T / N)`, the Brownian path is the cumulative sum of
`sqrt(T / N)`-scaled standard-normal draws produced from the effective
seed (so `W_0 = 0`), and `y_i = y0 * exp((mu - sigma^2 / 2) * t_i +
sigma * W_i)` at every grid point; in particular for `T = 1`, `N = 4`
the time grid is `[0, 0.25, 0.5, 0.75, 1]`. -/
theorem gbm_simulate_path_closed_form (G : ℤ → ℕ → ℝ) (p : GBMSimulator) (T : ℝ)
    (N : ℕ) (cs : Option ℤ) (fr : ℤ) (hy : 0 < p.y0) (hs : 0 ≤ p.sigma)
    (hT : 0 < T) (hN : 1 ≤ N) :
    (∀ i, i < N + 1 →
      (simulateCall G p T N cs fr).1[i]? = some ((i : ℝ) * (T / N)) ∧
      (simulateCall G p T N cs fr).2[i]? = some (p.y0 * Real.exp
        ((p.mu - p.sigma ^ 2 / 2) * ((i : ℝ) * (T / N)) + p.sigma *
          ∑ k ∈ Finset.range i, Real.sqrt (T / N) * G (effectiveSeed p.seed cs fr) k))) ∧
    tValues 1 4 = [0, 1 / 4, 1 / 2, 3 / 4, 1] := by
  refine ⟨fun i hi => ⟨tValues_getElem T N i hi, ?_⟩, tValues_concrete⟩
  rw [show (simulateCall G p T N cs fr).2
      = yValues p T N (G (effectiveSeed p.seed cs fr)) from rfl,
    yValues_getElem p T N _ i hi]
  rfl

/-- Witness for C1 at the scenario parameters. -/
theorem gbm_simulate_path_closed_form_witness :
    tValues 1 4 = [0, 1 / 4, 1 / 2, 3 / 4, 1] :=
  (gbm_simulate_path_closed_form zeroBackend scenarioSim 1 4 none 0
    (by norm_num [scenarioSim]) (by norm_num [scenarioSim]) zero_lt_one
    (by norm_num)).2

/-- C2: for every valid input, `simulate_path` returns two sequences of
length `N + 1`, with the time grid strictly increasing from `0` to `T`
and the value grid starting exactly at `y0`. -/
theorem gbm_simulate_path_shape (G : ℤ → ℕ → ℝ) (p : GBMSimulator) (T : ℝ)
    (N : ℕ) (cs : Option ℤ) (fr : ℤ) (hT : 0 < T) (hN : 1 ≤ N) :
    (simulateCall G p T N cs fr).1.length = N + 1 ∧
    (simulateCall G p T N cs fr).2.length = N + 1 ∧
    (simulateCall G p T N cs fr).1.Pairwise (· < ·) ∧
    (simulateCall G p T N cs fr).1.head? = some 0 ∧
    (simulateCall G p T N cs fr).1.getLast? = some T ∧
    (simulateCall G p T N cs fr).2.head? = some p.y0 :=
  ⟨tValues_length T N, yValues_length p T N _, tValues_sorted T N hT hN,
    tValues_head T N, tValues_getLast T N hN, yValues_head p T N _⟩

/-- Witness for C2 at the scenario parameters. -/
theorem gbm_simulate_path_shape_witness :
    (simulateCall zeroBackend scenarioSim 1 4 none 0).1.length = 4 + 1 :=
  (gbm_simulate_path_shape zeroBackend scenarioSim 1 4 none 0 zero_lt_one
    (by norm_num)).1

/-- C3: whenever `y0 > 0`, every entry of the returned value grid is
strictly positive (every entry is a real number of the model, hence
finite; the log-normal closed form never produces a non-positive
value). -/
theorem gbm_path_positive (G : ℤ → ℕ → ℝ) (p : GBMSimulator) (T : ℝ) (N : ℕ)
    (cs : Option ℤ) (fr : ℤ) (hy : 0 < p.y0) :
    ∀ y ∈ (simulateCall G p T N cs fr).2, 0 < y := by
  intro y hyMem
  rw [show (simulateCall G p T N cs fr).2
      = yValues p T N (G (effectiveSeed p.seed cs fr)) from rfl,
    yValues] at hyMem
  obtain ⟨i, _, rfl⟩ := List.mem_map.mp hyMem
  exact yValue_pos p T N _ i hy

/-- Witness for C3: the third value of the scenario path is positive. -/
theorem gbm_path_positive_witness :
    0 < yValue scenarioSim 1 4 (zeroBackend (effectiveSeed scenarioSim.seed none 0)) 2 :=
  gbm_path_positive zeroBackend scenarioSim 1 4 none 0 (by norm_num [scenarioSim]) _
    (List.mem_map_of_mem _ (by decide))

/-- C4: the output of `simulate_path` is a deterministic function of
`(y0, mu, sigma, T, N, effective seed)` only — two calls on the same
numeric backend whose parameters and effective seeds agree produce
identical `(t_values, y_values)`, whatever the stored seed or the
call-local fresh seed were. -/
theorem gbm_simulate_path_deterministic (G : ℤ → ℕ → ℝ) (p q : GBMSimulator)
    (T : ℝ) (N : ℕ) (cs1 cs2 : Option ℤ) (fr1 fr2 : ℤ)
    (hy : p.y0 = q.y0) (hm : p.mu = q.mu) (hs : p.sigma = q.sigma)
    (he : effectiveSeed p.seed cs1 fr1 = effectiveSeed q.seed cs2 fr2) :
    simulateCall G p T N cs1 fr1 = simulateCall G q T N cs2 fr2 := by
  obtain ⟨y1, m1, s1, sd1⟩ := p
  obtain ⟨y2, m2, s2, sd2⟩ := q
  dsimp at hy hm hs he
  subst hy hm hs
  rw [simulateCall, simulateCall, he]
  rfl

/-- Witness for C4: a fixed call seed `42` makes the stored seed and the
fresh seed irrelevant. -/
theorem gbm_simulate_path_deterministic_witness :
    simulateCall zeroBackend scenarioSim 1 4 (some 42) 0 =
      simulateCall zeroBackend ⟨1, 5 / 100, 2 / 10, none⟩ 1 4 (some 42) 3 :=
  gbm_simulate_path_deterministic zeroBackend scenarioSim ⟨1, 5 / 100, 2 / 10, none⟩
    1 4 (some 42) (some 42) 0 3 rfl rfl rfl rfl

/-- C5: construction fails with `InvalidParameter` exactly when
`y0 <= 0` or `sigma < 0`, `simulate_path` fails with `InvalidParameter`
exactly when `T <= 0`, `N < 1` or `N` is not an integer, every failure
names the offending field, and on success the simulator holds exactly
the given parameters and the call returns the complete path (validation
happens before any computation, so no partial simulator or path exists). -/
theorem gbm_parameter_validation (y0 mu sigma : ℝ) (seed : Option ℤ)
    (G : ℤ → ℕ → ℝ) (p : GBMSimulator) (T : ℝ) (N : ℚ) (cs : Option ℤ) (fr : ℤ) :
    ((∃ e, mkGBMSimulator y0 mu sigma seed = .error e) ↔ y0 ≤ 0 ∨ sigma < 0) ∧
    (y0 ≤ 0 → mkGBMSimulator y0 mu sigma seed = .error (.invalidParameter "y0")) ∧
    (0 < y0 → sigma < 0 →
      mkGBMSimulator y0 mu sigma seed = .error (.invalidParameter "sigma")) ∧
    (0 < y0 → 0 ≤ sigma →
      mkGBMSimulator y0 mu sigma seed = .ok ⟨y0, mu, sigma, seed⟩) ∧
    ((∃ e, simulatePathChecked G p T N cs fr = .error e) ↔
      T ≤ 0 ∨ N < 1 ∨ N.den ≠ 1) ∧
    (T ≤ 0 → simulatePathChecked G p T N cs fr = .error (.invalidParameter "T")) ∧
    (0 < T → (N.den ≠ 1 ∨ N < 1) →
      simulatePathChecked G p T N cs fr = .error (.invalidParameter "N")) ∧
    (0 < T → N.den = 1 → 1 ≤ N →
      simulatePathChecked G p T N cs fr = .ok (simulateCall G p T N.num.toNat cs fr)) := by
  refine ⟨?_, ?_, ?_, ?_, ?_, ?_, ?_, ?_⟩
  · rw [mkGBMSimulator]
    split_ifs with h1 h2
    · exact ⟨fun _ => Or.inl h1, fun _ => ⟨_, rfl⟩⟩
    · exact ⟨fun _ => Or.inr h2, fun _ => ⟨_, rfl⟩⟩
    · constructor
      · rintro ⟨e, he⟩
        cases he
      · rintro (h | h)
        · exact absurd h h1
        · exact absurd h h2
  · intro h1
    rw [mkGBMSimulator, if_pos h1]
  · intro h1 h2
    rw [mkGBMSimulator, if_neg (not_le.mpr h1), if_pos h2]
  · intro h1 h2
    rw [mkGBMSimulator, if_neg (not_le.mpr h1), if_neg (not_lt.mpr h2)]
  · rw [simulatePathChecked]
    split_ifs with h1 h2 h3
    · exact ⟨fun _ => Or.inl h1, fun _ => ⟨_, rfl⟩⟩
    · exact ⟨fun _ => Or.inr (Or.inr h2), fun _ => ⟨_, rfl⟩⟩
    · exact ⟨fun _ => Or.inr (Or.inl h3), fun _ => ⟨_, rfl⟩⟩
    · constructor
      · rintro ⟨e, he⟩
        cases he
      · rintro (h | h | h)
        · exact absurd h h1
        · exact absurd h h3
        · exact absurd h h2
  · intro h1
    rw [simulatePathChecked, if_pos h1]
  · intro h1 h2
    rw [simulatePathChecked, if_neg (not_le.mpr h1)]
    by_cases hd : N.den ≠ 1
    · rw [if_pos hd]
    · rw [if_neg hd]
      rcases h2 with h2 | h2
      · exact absurd h2 hd
      · rw [if_pos h2]
  · intro h1 h2 h3
    rw [simulatePathChecked, if_neg (not_le.mpr h1), if_neg (not_not_intro h2),
      if_neg (not_lt.mpr h3)]

/-- Witness for C5: the three boundary rejections of section 8. -/
theorem gbm_parameter_validation_witness :
    mkGBMSimulator 0 (5 / 100) (2 / 10) none = .error (.invalidParameter "y0") ∧
    simulatePathChecked zeroBackend scenarioSim 1 0 none 0
      = .error (.invalidParameter "N") ∧
    simulatePathChecked zeroBackend scenarioSim (-1) 10 none 0
      = .error (.invalidParameter "T") :=
  ⟨(gbm_parameter_validation 0 (5 / 100) (2 / 10) none zeroBackend scenarioSim
      1 0 none 0).2.1 le_rfl,
   (gbm_parameter_validation 0 (5 / 100) (2 / 10) none zeroBackend scenarioSim
      1 0 none 0).2.2.2.2.2.2.1 zero_lt_one (Or.inr (by norm_num)),
   (gbm_parameter_validation 0 (5 / 100) (2 / 10) none zeroBackend scenarioSim
      (-1) 10 none 0).2.2.2.2.2.1 (by norm_num)⟩

/-- C6: effective seed resolution — a call-level seed wins, else the
instance seed stored at construction, else the call-local fresh seed —
and no call modifies the simulator or the stored seed; the base-class
constructor stores exactly the given seed, `none` by default. -/
theorem gbm_effective_seed_resolution :
    (∀ (i : Option ℤ) (s fr : ℤ), effectiveSeed i (some s) fr = s) ∧
    (∀ (s fr : ℤ), effectiveSeed (some s) none fr = s) ∧
    (∀ fr : ℤ, effectiveSeed none none fr = fr) ∧
    (∀ (G : ℤ → ℕ → ℝ) (p : GBMSimulator) (T : ℝ) (N : ℕ) (cs : Option ℤ) (fr : ℤ),
      (simulateCallFull G p T N cs fr).1 = p) ∧
    (∀ s : Option ℤ, (StochasticProcess.init s)._seed = s) ∧
    StochasticProcess.initDefault._seed = none :=
  ⟨fun _ _ _ => rfl, fun _ _ => rfl, fun _ => rfl, fun _ _ _ _ _ _ => rfl,
    fun _ => rfl, rfl⟩

/-- C7: with `sigma = 0` the path is exactly the deterministic
exponential `y0 * exp(mu * t_i)` at every grid point, and with
additionally `mu = 0` it is the constant path `y0`. -/
theorem gbm_degenerate_cases (G : ℤ → ℕ → ℝ) (p : GBMSimulator) (T : ℝ) (N : ℕ)
    (cs : Option ℤ) (fr : ℤ) (hs : p.sigma = 0) :
    (∀ i, i < N + 1 →
      (simulateCall G p T N cs fr).1[i]? = some ((i : ℝ) * (T / N)) ∧
      (simulateCall G p T N cs fr).2[i]?
        = some (p.y0 * Real.exp (p.mu * ((i : ℝ) * (T / N))))) ∧
    (p.mu = 0 → ∀ i, i < N + 1 →
      (simulateCall G p T N cs fr).2[i]? = some p.y0) := by
  constructor
  · intro i hi
    refine ⟨tValues_getElem T N i hi, ?_⟩
    rw [show (simulateCall G p T N cs fr).2
        = yValues p T N (G (effectiveSeed p.seed cs fr)) from rfl,
      yValues_getElem p T N _ i hi, yValue_sigma_zero p T N _ i hs]
  · intro hm i hi
    rw [show (simulateCall G p T N cs fr).2
        = yValues p T N (G (effectiveSeed p.seed cs fr)) from rfl,
      yValues_getElem p T N _ i hi, yValue_sigma_mu_zero p T N _ i hs hm]

/-- Witness for C7: with zero drift and volatility the fourth grid value
is the initial value. -/
theorem gbm_degenerate_cases_witness :
    (simulateCall zeroBackend flatSim 1 4 none 0).2[3]? = some flatSim.y0 :=
  (gbm_degenerate_cases zeroBackend flatSim 1 4 none 0 rfl).2 rfl 3 (by norm_num)

/-- C8 counterexample: the abstract base is not stateless — its
constructor stores the seed argument in `_seed`, so constructing with
seed `0` and constructing with no seed yield distinguishable instance
states, refuting "holds no state and provides no default behavior". -/
theorem base_class_stateless_counterexample :
    StochasticProcess.init (some 0) ≠ StochasticProcess.init none := by
  decide

/-- C8 (amended): the abstract base declares `simulate_path` abstract
(it supplies no body for it), but it does provide default constructor
behavior: `__init__` stores the optional seed, `none` by default, as
the instance state `_seed`. -/
theorem base_class_stores_seed :
    (∀ s : Option ℤ, (StochasticProcess.init s)._seed = s) ∧
    StochasticProcess.initDefault = StochasticProcess.init none :=
  ⟨fun _ => rfl, rfl⟩

/-- C9: every field edit in the frontend form stores `Number(value)` —
the empty string stores `0` and a non-numeric string stores NaN — and
`runSimulation` posts the stored form values to the simulate endpoint
unconditionally, with no client-side validation of the
`y0 > 0, sigma >= 0, T > 0, N >= 1` preconditions. -/
theorem frontend_form_number_coercion :
    (∀ (form : SimulationInput) (key : FormKey) (v : String),
      handleChange form key v = setField form key (jsNumber v)) ∧
    (∀ (form : SimulationInput) (key : FormKey),
      handleChange form key "" = setField form key (.num 0)) ∧
    (∀ (form : SimulationInput) (key : FormKey),
      handleChange form key "abc" = setField form key .nan) ∧
    (∀ (form : SimulationInput) (outcome : FetchOutcome),
      (runSimulation form outcome).1
        = ⟨"http://127.0.0.1:8000/simulate", "POST", form⟩) := by
  refine ⟨fun _ _ _ => rfl, fun form key => ?_, fun form key => ?_, fun _ _ => rfl⟩
  · rw [handleChange, show jsNumber "" = .num 0 from by decide]
  · rw [handleChange, show jsNumber "abc" = .nan from by decide]

/-- C10: once the request of `runSimulation` settles, the component
state is: on success, `result` holds the parsed body and `error` is
null; on a non-ok response or a fetch failure, `error` holds the
failure message ("Request failed" when the message is empty) and
`result` stays null; and `loading` is reset to false in every case. -/
theorem frontend_run_simulation_outcomes (form : SimulationInput) :
    (∀ data, (runSimulation form (.success data)).2 = ⟨some data, false, none⟩) ∧
    (∀ t, t ≠ "" → (runSimulation form (.httpError t)).2 = ⟨none, false, some t⟩) ∧
    ((runSimulation form (.httpError "")).2
      = ⟨none, false, some "Request failed"⟩) ∧
    (∀ m, m ≠ "" → (runSimulation form (.fetchFailure m)).2 = ⟨none, false, some m⟩) ∧
    (∀ outcome, (runSimulation form outcome).2.loading = false) := by
  refine ⟨fun _ => rfl, fun t ht => ?_, rfl, fun m hm => ?_, fun outcome => ?_⟩
  · simp [runSimulation, jsOrElse, ht]
  · simp [runSimulation, jsOrElse, hm]
  · cases outcome <;> rfl

/-- Witness for C10: a non-ok response with body text "boom" leaves
exactly that error message, no result, and loading off. -/
theorem frontend_run_simulation_outcomes_witness :
    (runSimulation initialForm (.httpError "boom")).2 = ⟨none, false, some "boom"⟩ :=
  (frontend_run_simulation_outcomes initialForm).2.1 "boom" (by decide)

end PyGBM
